import Mathlib

/-!
Shallow embedding of the ndlib/libcal-gateway-blueprints infrastructure
blueprints.

The repository declares an AWS API-gateway topology in two variants
(src/src/libcal-gateway-stack.ts is the full stack; src/unnamed/part_001 is
the reduced stack that omits the hours and newevent endpoints and the SSM
api-url output), an application entry point (src/unnamed/part_000) and the
QA CodeBuild project (src/unnamed/part_002).  Pure data — environment
objects, endpoint descriptor tables, method options — is translated into
Lean structures; the endpoint loop (endpointData.forEach with
resourceForPath/addMethod) is translated into an explicit fold that threads
the set of already-claimed (path, method) construct keys, since the CDK
construct tree rejects a second construct with the same key (the spec's
"uniquely-keyed resource graph" contract with the provisioning engine).
-/

set_option maxRecDepth 8000

/-- Configuration errors raised during endpoint resolution.  The only source
of failure in the endpoint loop is a second method with the same verb being
added to the same resource, which the construct tree rejects. -/
inductive ConfigError where
  | duplicateRoute (path : String) (method : String)
deriving DecidableEq

/-- A deferred environment-variable value, per the three forms appearing in
the stacks: a literal string (e.g. props.stage, a template string, or a
constant), a stage-scoped SSM parameter lookup
(StringParameter.valueForStringParameter), or a secrets-manager field
reference (SecretValue.secretsManager with a jsonField). -/
inductive ValueRef where
  | literal (s : String)
  | paramLookup (path : String)
  | secretField (secretPath : String) (jsonField : String)
deriving DecidableEq

/-- An environment-variable mapping, as built by the object literals in the
stacks.  Represented as an ordered association list; lookup takes the last
binding for a key, matching JavaScript object-literal/spread semantics where
a later occurrence of a key overrides an earlier one. -/
abbrev EnvironmentSet := List (String × ValueRef)

/-- Last-binding-wins lookup on an EnvironmentSet, the map semantics of a
JavaScript object built by literals and spreads. -/
def envLookup : EnvironmentSet → String → Option ValueRef
  | [], _ => none
  | (k, v) :: rest, key =>
    match envLookup rest key with
    | some v' => some v'
    | none => if k = key then some v else none

/-- Composition of a base EnvironmentSet with a function-specific overlay,
the embedding of the spread pattern `\x7b ...env, EXTRA: ... \x7d` used by
hoursLambda and newEventLambda: the overlay entries come after the base
entries, so under `envLookup` a key defined by the overlay takes the
overlay's value and all other keys keep their base value. -/
def composeEnv (base overlay : EnvironmentSet) : EnvironmentSet :=
  base ++ overlay

/-- Props consumed by both stack variants (ILibCalGatewayStackProps plus the
stackName from cdk.StackProps and the region/account of the enclosing
cdk.Stack, which the authorizer ARN interpolates). -/
structure StackProps where
  stage : String
  lambdaCodePath : String
  sentryProject : String
  sentryVersion : String
  secretsPath : String
  stackName : String
  region : String
  account : String
deriving DecidableEq

/-- Stage-scoped parameter-store prefix.  Both stack variants and the QA
project compute the identical template `/all/libcal-gateway/$\x7bstage\x7d`. -/
def paramStorePath (stage : String) : String :=
  ("/all/libcal-gateway/") ++ stage

/-- Contentful secrets prefix used only by the full stack's newEventLambda. -/
def cfSecretsPath (stage : String) : String :=
  ("/all/contentful/") ++ stage

/-- The shared base environment `env` built identically at the top of both
stack variants. -/
def baseEnv (p : StackProps) : EnvironmentSet :=
  [(("SENTRY_DSN"), ValueRef.paramLookup (paramStorePath p.stage ++ ("/sentry_dsn"))),
   (("SENTRY_ENVIRONMENT"), ValueRef.literal p.stage),
   (("SENTRY_RELEASE"), ValueRef.literal (p.sentryProject ++ ("@") ++ p.sentryVersion)),
   (("LIBCAL_API_URL"), ValueRef.paramLookup (paramStorePath p.stage ++ ("/libcal_api_url"))),
   (("API_CLIENT_ID"), ValueRef.secretField p.secretsPath ("api_client_id")),
   (("API_CLIENT_SECRET"), ValueRef.secretField p.secretsPath ("api_client_secret"))]

/-- A declared lambda function with its fixed resource attributes. The
runtime, log retention (RetentionDays.ONE_WEEK as days), memory size and
timeout are recorded as plain data. -/
structure LambdaFunction where
  functionName : String
  description : String
  codePath : String
  handler : String
  runtime : String
  logRetentionDays : Nat
  memorySize : Nat
  timeoutSeconds : Nat
  environment : EnvironmentSet
deriving DecidableEq

/-- SpaceLocationsFunction, declared identically in both stack variants. -/
def spaceLocationsLambda (p : StackProps) : LambdaFunction :=
  { functionName := p.stackName ++ ("-getSpaceLocations")
    description := ("Get a list of spaces available.")
    codePath := p.lambdaCodePath
    handler := ("getSpaceLocations.handler")
    runtime := ("nodejs12.x")
    logRetentionDays := 7
    memorySize := 256
    timeoutSeconds := 30
    environment := baseEnv p }

/-- SpaceBookingsFunction, declared identically in both stack variants. -/
def spaceBookingsLambda (p : StackProps) : LambdaFunction :=
  { functionName := p.stackName ++ ("-getSpaceBookings")
    description := ("Get a list of space bookings for the authenticated user.")
    codePath := p.lambdaCodePath
    handler := ("getSpaceBookings.handler")
    runtime := ("nodejs12.x")
    logRetentionDays := 7
    memorySize := 256
    timeoutSeconds := 30
    environment := baseEnv p }

/-- CancelBookingFunction, declared identically in both stack variants. -/
def cancelBookingLambda (p : StackProps) : LambdaFunction :=
  { functionName := p.stackName ++ ("-cancelBooking")
    description := ("Cancel a given booking that the authenticated user has reserved.")
    codePath := p.lambdaCodePath
    handler := ("cancelBooking.handler")
    runtime := ("nodejs12.x")
    logRetentionDays := 7
    memorySize := 256
    timeoutSeconds := 30
    environment := baseEnv p }

/-- HoursFunction of the full stack, whose environment overlays one extra
parameter lookup over the shared base environment. -/
def hoursLambda (p : StackProps) : LambdaFunction :=
  { functionName := p.stackName ++ ("-hours")
    description := ("Get hours for library locations from Libcal.")
    codePath := p.lambdaCodePath
    handler := ("hours.handler")
    runtime := ("nodejs12.x")
    logRetentionDays := 7
    memorySize := 256
    timeoutSeconds := 30
    environment := composeEnv (baseEnv p)
      [(("LIBCAL_HOURS_WIDGET_URL"),
        ValueRef.paramLookup (paramStorePath p.stage ++ ("/hours_widget_url")))] }

/-- NewEventFunction of the full stack, whose environment overlays four
Contentful entries over the shared base environment. -/
def newEventLambda (p : StackProps) : LambdaFunction :=
  { functionName := p.stackName ++ ("-newEvent")
    description := ("Contentful hook to update event information from LibCal.")
    codePath := p.lambdaCodePath
    handler := ("newEvent.handler")
    runtime := ("nodejs12.x")
    logRetentionDays := 7
    memorySize := 256
    timeoutSeconds := 30
    environment := composeEnv (baseEnv p)
      [(("CONTENTFUL_SPACE"), ValueRef.secretField (cfSecretsPath p.stage) ("library-website/space")),
       (("CONTENTFUL_ENV"), ValueRef.secretField (cfSecretsPath p.stage) ("library-website/environment")),
       (("CONTENTFUL_CMA_TOKEN"), ValueRef.secretField (cfSecretsPath p.stage) ("management_token")),
       (("CONTENTFUL_CMA_URL"), ValueRef.literal ("https://api.contentful.com"))] }

/-- The TokenAuthorizer construct (JwtAuthorizer) created once inside
authMethodOptions in both stack variants. -/
structure TokenAuthorizer where
  handlerArn : String
  identitySource : String
  authorizerName : String
  resultsCacheTtlMinutes : Nat
deriving DecidableEq

/-- The single JwtAuthorizer instance of a stack. -/
def jwtAuthorizer (p : StackProps) : TokenAuthorizer :=
  { handlerArn := ("arn:aws:lambda:") ++ p.region ++ (":") ++ p.account
      ++ (":function:lambda-auth-") ++ p.stage
    identitySource := ("method.request.header.Authorization")
    authorizerName := ("jwt")
    resultsCacheTtlMinutes := 5 }

/-- Authorization type of a method; the stacks only ever use CUSTOM. -/
inductive AuthorizationType where
  | custom
deriving DecidableEq

/-- Method options attached by addMethod.  The authorizer field is an index
into the topology's arena of TokenAuthorizer instances, so two bindings
referencing the same index share one identity-equal instance. -/
structure MethodOptions where
  authorizationType : Option AuthorizationType
  authorizer : Option Nat
  requestParameters : List (String × Bool)
deriving DecidableEq

/-- The authMethodOptions object of both stack variants, parameterized by
the arena index of the authorizer it constructs. -/
def authMethodOptions (authorizerIdx : Nat) : MethodOptions :=
  { authorizationType := some AuthorizationType.custom
    authorizer := some authorizerIdx
    requestParameters := [(("method.request.header.Authorization"), true)] }

/-- The cancelMethodOptions object: a JavaScript shallow spread of
authMethodOptions whose trailing requestParameters key replaces the whole
requestParameters object.  The authorizationType and authorizer keys are
inherited; the Authorization-header request parameter is not. -/
def cancelMethodOptions (authorizerIdx : Nat) : MethodOptions :=
  { authMethodOptions authorizerIdx with
      requestParameters := [(("method.request.path.id"), true)] }

/-- A LambdaIntegration: the backing function (as an index into the
topology's function arena) plus optional integration options. -/
structure LambdaIntegration where
  lambdaRef : Nat
  passthroughBehavior : Option String
  requestParameters : List (String × String)
deriving DecidableEq

/-- One row of the endpointData table. -/
structure EndpointDescriptor where
  path : String
  method : String
  lambdaRef : Nat
  requiresAuth : Bool
deriving DecidableEq

/-- The resolved association of a route with its integration and method
options, produced by one addMethod call. -/
structure ResolvedBinding where
  path : String
  method : String
  requiresAuth : Bool
  integration : LambdaIntegration
  options : Option MethodOptions
deriving DecidableEq

/-- The (path, method) construct key claimed by one addMethod call. -/
abbrev RouteKey := String × String

/-- Route key of a descriptor. -/
def routeKey (d : EndpointDescriptor) : RouteKey :=
  (d.path, d.method)

/-- One iteration of the endpointData.forEach body: resourceForPath plus
addMethod with a plain LambdaIntegration, and authMethodOptions exactly when
the descriptor requires auth. -/
def mkBinding (authOpts : MethodOptions) (d : EndpointDescriptor) : ResolvedBinding :=
  { path := d.path
    method := d.method
    requiresAuth := d.requiresAuth
    integration := { lambdaRef := d.lambdaRef, passthroughBehavior := none, requestParameters := [] }
    options := if d.requiresAuth then some authOpts else none }

/-- Claim a (path, method) construct key in the construct tree.  A second
method with the same verb on the same resource is a construction error —
the construct tree requires unique keys — so a duplicate fails before
anything is provisioned. -/
def addRoute (seen : List RouteKey) (path : String) (method : String) :
    Except ConfigError (List RouteKey) :=
  if (path, method) ∈ seen then Except.error (ConfigError.duplicateRoute path method)
  else Except.ok ((path, method) :: seen)

/-- The endpointData.forEach loop: each descriptor claims its construct key
and yields one binding; the first duplicate key aborts the whole
construction.  Returns the bindings in input order together with the final
set of claimed keys. -/
def resolveGo (authOpts : MethodOptions) :
    List RouteKey → List EndpointDescriptor →
      Except ConfigError (List ResolvedBinding × List RouteKey)
  | seen, [] => Except.ok ([], seen)
  | seen, d :: ds =>
    if routeKey d ∈ seen then Except.error (ConfigError.duplicateRoute d.path d.method)
    else
      match resolveGo authOpts (routeKey d :: seen) ds with
      | Except.ok r => Except.ok (mkBinding authOpts d :: r.1, r.2)
      | Except.error e => Except.error e

/-- Endpoint table resolution starting from an empty construct tree. -/
def resolveEndpoints (authOpts : MethodOptions) (ds : List EndpointDescriptor) :
    Except ConfigError (List ResolvedBinding) :=
  match resolveGo authOpts [] ds with
  | Except.ok r => Except.ok r.1
  | Except.error e => Except.error e

/-- Bindings delivered by a resolution outcome: a failed resolution delivers
none (all-or-nothing). -/
def bindingsOf : Except ConfigError (List ResolvedBinding) → List ResolvedBinding
  | Except.ok bs => bs
  | Except.error _ => []

/-- The endpointData table of the full stack.  Function indices refer to the
full stack's function arena: 0 = spaceLocations, 1 = spaceBookings,
2 = cancelBooking, 3 = hours, 4 = newEvent. -/
def endpointDataFull : List EndpointDescriptor :=
  [{ path := ("/space/locations"), method := ("GET"), lambdaRef := 0, requiresAuth := false },
   { path := ("/space/bookings"), method := ("GET"), lambdaRef := 1, requiresAuth := true },
   { path := ("/hours"), method := ("GET"), lambdaRef := 3, requiresAuth := false },
   { path := ("/newevent"), method := ("POST"), lambdaRef := 4, requiresAuth := false }]

/-- The endpointData table of the reduced stack variant; indices 0 and 1
refer to spaceLocations and spaceBookings in its function arena. -/
def endpointDataReduced : List EndpointDescriptor :=
  [{ path := ("/space/locations"), method := ("GET"), lambdaRef := 0, requiresAuth := false },
   { path := ("/space/bookings"), method := ("GET"), lambdaRef := 1, requiresAuth := true }]

/-- The /space/cancel/\x7bid\x7d binding added after the loop in both stack
variants: a POST with cancelIntegrationOptions (pass-through of the id path
parameter to the integration) and cancelMethodOptions.  Its method options
carry the custom authorizer spread from authMethodOptions, so the binding is
auth-requiring.  cancelBookingLambda is index 2 in both function arenas. -/
def cancelBinding : ResolvedBinding :=
  { path := ("/space/cancel/{id}")
    method := ("POST")
    requiresAuth := true
    integration :=
      { lambdaRef := 2
        passthroughBehavior := some ("WHEN_NO_MATCH")
        requestParameters := [(("integration.request.path.id"), ("method.request.path.id"))] }
    options := some (cancelMethodOptions 0) }

/-- Static policy choices of the RestApi construct, identical in both stack
variants. -/
structure RestApi where
  restApiName : String
  description : String
  stageName : String
  loggingLevel : String
  metricsEnabled : Bool
  allowOrigins : List String
  allowCredentials : Bool
  corsStatusCode : Nat
  validateRequestParameters : Bool
deriving DecidableEq

/-- The ApiGateway RestApi of a stack. -/
def restApiOf (p : StackProps) : RestApi :=
  { restApiName := p.stackName
    description := ("LibCal Gateway API")
    stageName := p.stage
    loggingLevel := ("ERROR")
    metricsEnabled := true
    allowOrigins := [("*")]
    allowCredentials := false
    corsStatusCode := 200
    validateRequestParameters := true }

/-- A deploy-time value: either the url attribute of a RestApi construct or
a plain string. -/
inductive CfnValue where
  | apiUrl (constructId : String)
  | lit (s : String)
deriving DecidableEq

/-- An SSM StringParameter written by a stack. -/
structure StringParam where
  parameterName : String
  description : String
  stringValue : CfnValue
deriving DecidableEq

/-- The ApiUrlParameter written by the full stack: the gateway's url under
the stage-scoped key `$\x7bparamStorePath\x7d/api-url`. -/
def apiUrlParameter (p : StackProps) : StringParam :=
  { parameterName := paramStorePath p.stage ++ ("/api-url")
    description := ("Path to root of the API gateway.")
    stringValue := CfnValue.apiUrl ("ApiGateway") }

/-- One assembled topology: the arenas of declared functions and
authorizers, the gateway, the resolved bindings, and the SSM parameters the
stack writes. -/
structure Topology where
  functions : List LambdaFunction
  authorizers : List TokenAuthorizer
  restApi : RestApi
  bindings : List ResolvedBinding
  ssmWrites : List StringParam
deriving DecidableEq

/-- Placeholder topology used only to destructure a resolution outcome. -/
def emptyTopology : Topology :=
  { functions := []
    authorizers := []
    restApi :=
      { restApiName := ("")
        description := ("")
        stageName := ("")
        loggingLevel := ("")
        metricsEnabled := false
        allowOrigins := []
        allowCredentials := false
        corsStatusCode := 0
        validateRequestParameters := false }
    bindings := []
    ssmWrites := [] }

/-- Topology of a successful assembly; a failed assembly yields the empty
placeholder. -/
def getTopology : Except ConfigError Topology → Topology
  | Except.ok t => t
  | Except.error _ => emptyTopology

/-- The full stack constructor (src/src/libcal-gateway-stack.ts): declares
the five functions and the single JwtAuthorizer (arena index 0), resolves
the endpointData table, adds the cancel route through the same construct
tree, and writes the ApiUrlParameter. -/
def libCalGatewayStack (p : StackProps) : Except ConfigError Topology := do
  let r ← resolveGo (authMethodOptions 0) [] endpointDataFull
  let _ ← addRoute r.2 cancelBinding.path cancelBinding.method
  Except.ok
    { functions :=
        [spaceLocationsLambda p, spaceBookingsLambda p, cancelBookingLambda p,
         hoursLambda p, newEventLambda p]
      authorizers := [jwtAuthorizer p]
      restApi := restApiOf p
      bindings := r.1 ++ [cancelBinding]
      ssmWrites := [apiUrlParameter p] }

/-- The reduced stack constructor (src/unnamed/part_001): three functions,
two table rows plus the cancel route, and no SSM write. -/
def libCalGatewayStackReduced (p : StackProps) : Except ConfigError Topology := do
  let r ← resolveGo (authMethodOptions 0) [] endpointDataReduced
  let _ ← addRoute r.2 cancelBinding.path cancelBinding.method
  Except.ok
    { functions := [spaceLocationsLambda p, spaceBookingsLambda p, cancelBookingLambda p]
      authorizers := [jwtAuthorizer p]
      restApi := restApiOf p
      bindings := r.1 ++ [cancelBinding]
      ssmWrites := [] }

/-- The QA CodeBuild project (src/unnamed/part_002): reads its API_URL
runtime variable from the stage-scoped parameter-store key
`$\x7bparamStorePath\x7d/api-url` and runs the fixed newman collection. -/
structure QaProject where
  apiUrlKey : String
  apiUrlSourceType : String
  ciValue : String
  buildImage : String
  testCommand : String
deriving DecidableEq

/-- The LibCalGatewayQaProject for a stage. -/
def libCalGatewayQaProject (stage : String) : QaProject :=
  { apiUrlKey := paramStorePath stage ++ ("/api-url")
    apiUrlSourceType := ("PARAMETER_STORE")
    ciValue := ("true")
    buildImage := ("STANDARD_4_0")
    testCommand :=
      ("newman run ./tests/postman/qa_collection.json --env-var libcalGatewayApiUrl=$API_URL") }

/-- Request parameters of a binding's method options (empty for an open
binding). -/
def optionsParams (b : ResolvedBinding) : List (String × Bool) :=
  match b.options with
  | some o => o.requestParameters
  | none => []

/-- Whether a binding marks the Authorization header as a required request
parameter. -/
def marksAuthorizationRequired (b : ResolvedBinding) : Bool :=
  (optionsParams b).contains ((("method.request.header.Authorization")), true)

/-- Arena index of the authorizer a binding's method options reference. -/
def authorizerIndexOf (b : ResolvedBinding) : Option Nat :=
  match b.options with
  | some o => o.authorizer
  | none => none

/-- Prefix test on character lists. -/
def charsHavePrefixOf : List Char → List Char → Bool
  | [], _ => true
  | _ :: _, [] => false
  | c :: cs, d :: ds => c == d && charsHavePrefixOf cs ds

/-- Whether a request-parameter key names a path parameter
(method.request.path.*). -/
def isPathParamKey (k : String) : Bool :=
  charsHavePrefixOf (("method.request.path.")).data k.data

/-- Whether a binding marks some path parameter as a required request
parameter. -/
def hasReqPathParam (b : ResolvedBinding) : Bool :=
  (optionsParams b).any (fun kv => isPathParamKey kv.1 && kv.2)

/-- Whether a path string contains a template parameter segment. -/
def hasTemplateSegment (s : String) : Bool :=
  s.data.any (fun c => c == '\x7b')

/-- Whether a binding is open (no method options) or attaches the shared
authorizer at arena index 0 with CUSTOM authorization. -/
def openOrAuth (b : ResolvedBinding) : Bool :=
  match b.options with
  | none => true
  | some o =>
    o.authorizer == some 0 && o.authorizationType == some AuthorizationType.custom

/-- Fixed resource attributes shared by every declared function, plus
coverage of every key of the shared base environment. -/
def lambdaInvariant (p : StackProps) (f : LambdaFunction) : Bool :=
  f.runtime == ("nodejs12.x") && f.memorySize == 256 && f.timeoutSeconds == 30
    && f.logRetentionDays == 7
    && (baseEnv p).all (fun kv => (envLookup f.environment kv.1).isSome)

/-- Names of the delivery pipeline's stages, per the spec's state machine. -/
inductive StageName where
  | source
  | build
  | deployService
  | qaGate
  | notify
deriving DecidableEq

/-- Whether a stage name is the QA gate. -/
def isQaGate : StageName → Bool
  | StageName.qaGate => true
  | _ => false

/-- One stage of the delivery pipeline with its consumed and produced
artifact references. -/
structure PipelineStageSpec where
  name : StageName
  inputs : List String
  outputs : List String
deriving DecidableEq

/-- The artifact reference carrying the gateway URL from the deploy stage to
the QA gate. -/
def gatewayUrlArtifact : String :=
  ("gateway-api-url")

/-- Modelled from the spec: the delivery pipeline stack
(libcal-gateway-pipeline-stack.ts) is referenced by the entry point
src/unnamed/part_000 but its source is not under src/, so the stage
sequence is taken from the specification's state machine: Source, Build,
then — only when a target service topology is configured — DeployService
followed immediately by QAGate consuming the gateway URL artifact that
DeployService publishes, and finally Notify. -/
def pipelineStages (deployServiceIncluded : Bool) : List PipelineStageSpec :=
  [{ name := StageName.source, inputs := [], outputs := [("source-artifact")] },
   { name := StageName.build, inputs := [("source-artifact")], outputs := [("build-artifact")] }]
  ++ (if deployServiceIncluded then
        [{ name := StageName.deployService, inputs := [("build-artifact")],
           outputs := [gatewayUrlArtifact] },
         { name := StageName.qaGate, inputs := [gatewayUrlArtifact], outputs := [] }]
      else [])
  ++ [{ name := StageName.notify, inputs := [], outputs := [] }]

/-- Whether a stage sequence contains a DeployService stage immediately
followed by a QAGate stage that consumes an artifact the DeployService
stage publishes. -/
def qaFollowsDeploy : List PipelineStageSpec → Bool
  | s1 :: s2 :: rest =>
    (match s1.name, s2.name with
     | StageName.deployService, StageName.qaGate =>
       s2.inputs.any (fun a => s1.outputs.contains a)
     | _, _ => false)
    || qaFollowsDeploy (s2 :: rest)
  | _ => false

/-- Concrete props used for closed evaluations. -/
def propsC : StackProps :=
  { stage := ("dev")
    lambdaCodePath := ("../libcal-gateway/src")
    sentryProject := ("libcal-gateway")
    sentryVersion := ("abc123")
    secretsPath := ("/all/libcal/secrets")
    stackName := ("libcal-gateway-dev")
    region := ("us-east-1")
    account := ("123456789012") }

/-- A descriptor used to exhibit a duplicate (path, method) pair. -/
def dupDescriptor : EndpointDescriptor :=
  { path := ("/hours"), method := ("GET"), lambdaRef := 3, requiresAuth := false }

/-- Successful run of the endpoint loop: when the descriptors' route keys
are pairwise distinct and none is already claimed, the loop claims them all
and yields one binding per descriptor in input order. -/
theorem resolveGo_ok (authOpts : MethodOptions) :
    ∀ (ds : List EndpointDescriptor) (seen : List RouteKey),
      (ds.map routeKey).Nodup →
      (∀ k ∈ ds.map routeKey, k ∉ seen) →
      resolveGo authOpts seen ds
        = Except.ok (ds.map (mkBinding authOpts), (ds.map routeKey).reverse ++ seen) := by
  intro ds
  induction ds with
  | nil =>
    intro seen _ _
    rfl
  | cons d ds ih =>
    intro seen hnd hdisj
    have hd_notin : routeKey d ∉ seen := by
      apply hdisj
      simp
    have hnd' : (ds.map routeKey).Nodup := (List.nodup_cons.mp (by simpa using hnd)).2
    have hhead : routeKey d ∉ ds.map routeKey := (List.nodup_cons.mp (by simpa using hnd)).1
    have hdisj' : ∀ k ∈ ds.map routeKey, k ∉ routeKey d :: seen := by
      intro k hk
      simp only [List.mem_cons]
      rintro (hkd | hkseen)
      · exact hhead (hkd ▸ hk)
      · exact hdisj k (by simp [hk]) hkseen
    simp only [resolveGo, if_neg hd_notin, ih (routeKey d :: seen) hnd' hdisj']
    simp [List.append_assoc]

/-- Failing run of the endpoint loop: when the descriptors repeat a route
key, or one of their route keys is already claimed, the loop aborts with an
error. -/
theorem resolveGo_err (authOpts : MethodOptions) :
    ∀ (ds : List EndpointDescriptor) (seen : List RouteKey),
      (¬ (ds.map routeKey).Nodup ∨ ∃ k ∈ ds.map routeKey, k ∈ seen) →
      ∃ e, resolveGo authOpts seen ds = Except.error e := by
  intro ds
  induction ds with
  | nil =>
    intro seen h
    rcases h with h | ⟨k, hk, _⟩
    · exact absurd List.nodup_nil h
    · simp at hk
  | cons d ds ih =>
    intro seen h
    by_cases hmem : routeKey d ∈ seen
    · exact ⟨ConfigError.duplicateRoute d.path d.method, by simp [resolveGo, if_pos hmem]⟩
    · have h' : ¬ (ds.map routeKey).Nodup ∨ ∃ k ∈ ds.map routeKey, k ∈ routeKey d :: seen := by
        rcases h with h | ⟨k, hk, hkseen⟩
        · by_cases hhead : routeKey d ∈ ds.map routeKey
          · exact Or.inr ⟨routeKey d, hhead, by simp⟩
          · refine Or.inl (fun hnd => h ?_)
            simpa using List.nodup_cons.mpr ⟨hhead, hnd⟩
        · rcases (by simpa using hk : k = routeKey d ∨ k ∈ ds.map routeKey) with rfl | hk'
          · exact absurd hkseen hmem
          · exact Or.inr ⟨k, hk', by simp [hkseen]⟩
      obtain ⟨e, he⟩ := ih (routeKey d :: seen) h'
      exact ⟨e, by simp [resolveGo, if_neg hmem, he]⟩

/-- C1: for every ordered list of endpoint descriptors whose (path, method)
pairs are unique, endpoint resolution succeeds and produces exactly one
resolved binding per descriptor, in the same order as the input list. -/
theorem libcal_c1_resolution (authOpts : MethodOptions) (ds : List EndpointDescriptor)
    (h : (ds.map routeKey).Nodup) :
    resolveEndpoints authOpts ds = Except.ok (ds.map (mkBinding authOpts)) := by
  unfold resolveEndpoints
  rw [resolveGo_ok authOpts ds [] h (by simp)]

/-- Witness for C1 at the full stack's endpointData table. -/
theorem libcal_c1_witness :
    (endpointDataFull.map routeKey).Nodup ∧
      resolveEndpoints (authMethodOptions 0) endpointDataFull
        = Except.ok (endpointDataFull.map (mkBinding (authMethodOptions 0))) :=
  ⟨by decide, libcal_c1_resolution (authMethodOptions 0) endpointDataFull (by decide)⟩

/-- C2: for every endpoint descriptor list containing a duplicate
(path, method) pair, resolution fails with a configuration error and
produces zero bindings — no partial topology. -/
theorem libcal_c2_duplicate (authOpts : MethodOptions) (ds : List EndpointDescriptor)
    (h : ¬ (ds.map routeKey).Nodup) :
    (∃ e, resolveEndpoints authOpts ds = Except.error e)
      ∧ bindingsOf (resolveEndpoints authOpts ds) = [] := by
  obtain ⟨e, he⟩ := resolveGo_err authOpts ds [] (Or.inl h)
  refine ⟨⟨e, ?_⟩, ?_⟩ <;> simp [resolveEndpoints, he, bindingsOf]

/-- Witness for C2 at a list repeating the hours route. -/
theorem libcal_c2_witness :
    (∃ e, resolveEndpoints (authMethodOptions 0) [dupDescriptor, dupDescriptor] = Except.error e)
      ∧ bindingsOf (resolveEndpoints (authMethodOptions 0) [dupDescriptor, dupDescriptor]) = [] :=
  libcal_c2_duplicate (authMethodOptions 0) [dupDescriptor, dupDescriptor] (by decide)

/-- C3: composing a base EnvironmentSet with a function-specific overlay is
a later-wins merge — a key defined by the overlay looks up to the overlay's
value, and a key the overlay does not define keeps its base value. -/
theorem libcal_c3_env_compose (base overlay : EnvironmentSet) (k : String) :
    envLookup (composeEnv base overlay) k
      = ((envLookup overlay k).orElse (fun _ => envLookup base k)) := by
  induction base with
  | nil => cases h : envLookup overlay k <;> simp [composeEnv, envLookup, Option.orElse, h]
  | cons hd tl ih =>
    cases h : envLookup overlay k <;>
      simp_all [composeEnv, envLookup, Option.orElse]

/-- C4: each assembled topology (full and reduced variant) holds exactly
one authorizer instance in its arena, and every auth-requiring binding
references that same instance (arena index 0). -/
theorem libcal_c4_single_authorizer (p : StackProps) :
    ((getTopology (libCalGatewayStack p)).authorizers.length = 1
      ∧ (getTopology (libCalGatewayStack p)).bindings.all
          (fun b => !b.requiresAuth || (authorizerIndexOf b == some 0)) = true)
    ∧ ((getTopology (libCalGatewayStackReduced p)).authorizers.length = 1
      ∧ (getTopology (libCalGatewayStackReduced p)).bindings.all
          (fun b => !b.requiresAuth || (authorizerIndexOf b == some 0)) = true) :=
  ⟨⟨rfl, rfl⟩, ⟨rfl, rfl⟩⟩

/-- C5 counterexample: in the full topology at concrete props, the
/space/cancel/\x7bid\x7d binding requires auth but does not mark the
Authorization header as a required request parameter — the
requestParameters key of the cancelMethodOptions spread replaces the
inherited one wholesale. -/
theorem libcal_c5_counterexample :
    (getTopology (libCalGatewayStack propsC)).bindings.filter
        (fun b => b.path == ("/space/cancel/{id}")) = [cancelBinding]
    ∧ cancelBinding.requiresAuth = true
    ∧ marksAuthorizationRequired cancelBinding = false := by decide

/-- C5 amended: in both variants, every auth-requiring binding attaches the
shared authorizer (arena index 0); every such binding except
/space/cancel/\x7bid\x7d also marks the Authorization header required, while
the cancel binding's request parameters consist solely of the required id
path parameter. -/
theorem libcal_c5_amended (p : StackProps) :
    (getTopology (libCalGatewayStack p)).bindings.all
      (fun b => !b.requiresAuth
        || (authorizerIndexOf b == some 0
            && (if b.path == ("/space/cancel/{id}")
                then optionsParams b == [(("method.request.path.id"), true)]
                else marksAuthorizationRequired b))) = true
    ∧ (getTopology (libCalGatewayStackReduced p)).bindings.all
      (fun b => !b.requiresAuth
        || (authorizerIndexOf b == some 0
            && (if b.path == ("/space/cancel/{id}")
                then optionsParams b == [(("method.request.path.id"), true)]
                else marksAuthorizationRequired b))) = true :=
  ⟨rfl, rfl⟩

/-- C6: in both topology variants, the single binding whose path contains a
template parameter segment is the cancel binding; it is the only binding
with a required path parameter, it marks the id path parameter required,
and its integration declares the pass-through mapping from
method.request.path.id to integration.request.path.id. -/
theorem libcal_c6_path_param (p : StackProps) :
    ((getTopology (libCalGatewayStack p)).bindings.filter
        (fun b => hasTemplateSegment b.path) = [cancelBinding]
      ∧ (getTopology (libCalGatewayStack p)).bindings.filter hasReqPathParam = [cancelBinding])
    ∧ ((getTopology (libCalGatewayStackReduced p)).bindings.filter
        (fun b => hasTemplateSegment b.path) = [cancelBinding]
      ∧ (getTopology (libCalGatewayStackReduced p)).bindings.filter hasReqPathParam
          = [cancelBinding])
    ∧ optionsParams cancelBinding = [(("method.request.path.id"), true)]
    ∧ cancelBinding.integration.requestParameters
        = [(("integration.request.path.id"), ("method.request.path.id"))] :=
  ⟨⟨rfl, rfl⟩, ⟨rfl, rfl⟩, rfl, rfl⟩

/-- C7: a pipeline without the DeployService stage contains no QAGate
stage; a pipeline with it has QAGate immediately after DeployService,
consuming the gateway URL artifact DeployService publishes. -/
theorem libcal_c7_pipeline :
    ((pipelineStages false).all (fun s => !(isQaGate s.name)) = true)
    ∧ (qaFollowsDeploy (pipelineStages true) = true) := by decide

/-- C8: the full stack writes the gateway URL to exactly one SSM parameter,
whose key equals both the key the QA project reads API_URL from and the
stage-scoped template paramStorePath followed by /api-url. -/
theorem libcal_c8_api_url_param (p : StackProps) :
    (getTopology (libCalGatewayStack p)).ssmWrites.length = 1
    ∧ (getTopology (libCalGatewayStack p)).ssmWrites.map (fun w => w.parameterName)
        = [(libCalGatewayQaProject p.stage).apiUrlKey]
    ∧ (libCalGatewayQaProject p.stage).apiUrlKey = paramStorePath p.stage ++ ("/api-url")
    ∧ (getTopology (libCalGatewayStack p)).ssmWrites.map (fun w => w.stringValue)
        = [CfnValue.apiUrl ("ApiGateway")] :=
  ⟨rfl, rfl, rfl, rfl⟩

/-- C9 counterexample: the reduced stack variant exposes only three
path+method pairs, refuting "four or more" for every variant. -/
theorem libcal_c9_counterexample :
    (getTopology (libCalGatewayStackReduced propsC)).bindings.length = 3
    ∧ ¬ (4 ≤ (getTopology (libCalGatewayStackReduced propsC)).bindings.length) := by decide

/-- C9 amended: each variant exposes three or more path+method pairs (five
in the full variant, three in the reduced one) under one gateway, each
binding open or attached to the shared authorizer whose identity source is
the Authorization header, and exactly one binding — the cancel binding,
whose integration passes the id parameter through — carries a required path
parameter. -/
theorem libcal_c9_amended (p : StackProps) :
    ((getTopology (libCalGatewayStack p)).bindings.length = 5
      ∧ (getTopology (libCalGatewayStackReduced p)).bindings.length = 3)
    ∧ ((getTopology (libCalGatewayStack p)).bindings.all openOrAuth = true
      ∧ (getTopology (libCalGatewayStackReduced p)).bindings.all openOrAuth = true)
    ∧ ((getTopology (libCalGatewayStack p)).authorizers.map (fun a => a.identitySource)
        = [("method.request.header.Authorization")]
      ∧ (getTopology (libCalGatewayStackReduced p)).authorizers.map (fun a => a.identitySource)
        = [("method.request.header.Authorization")])
    ∧ ((getTopology (libCalGatewayStack p)).bindings.filter hasReqPathParam = [cancelBinding]
      ∧ (getTopology (libCalGatewayStackReduced p)).bindings.filter hasReqPathParam
          = [cancelBinding]
      ∧ cancelBinding.integration.requestParameters
          = [(("integration.request.path.id"), ("method.request.path.id"))]) :=
  ⟨⟨rfl, rfl⟩, ⟨rfl, rfl⟩, ⟨rfl, rfl⟩, ⟨rfl, rfl, rfl⟩⟩

/-- C10: every function declared by either stack variant has the fixed
attributes — nodejs12.x runtime, 256 MB memory, 30 s timeout, one-week log
retention — and an environment defining every key of the shared base
EnvironmentSet. -/
theorem libcal_c10_lambda_invariants (p : StackProps) :
    ((getTopology (libCalGatewayStack p)).functions
      ++ (getTopology (libCalGatewayStackReduced p)).functions).all (lambdaInvariant p) = true :=
  rfl
